import Mathlib

/-!
Shallow embedding of the adaptive-routing / tiered-knowledge-store core of the
repository (src/intelligent_dispatch/matching_matrix.py,
src/intelligent_dispatch/model_router.py,
src/knowledge_store/knowledge_repository.py,
src/knowledge_store/feedback_optimizer.py), together with theorems checking the
specification's claims against it.

Conventions of the embedding:
* Python floats are modelled as exact rationals (ℚ); every constant in the source
  is a short decimal, so no rounding behaviour is claim-relevant.
* Python dicts (which preserve insertion order) are association lists
  `List (String × α)`; updating an existing key keeps its position, new keys are
  appended — exactly the CPython dict semantics the source relies on.
* Timestamps are naturals.  The source compares `datetime.isoformat()` strings
  lexicographically, which for a fixed format agrees with chronological order,
  so `<` on ℕ is a faithful model.
* A Python exception is a `PyError` value.  A function that may raise returns
  `Except PyError α`; a `try/except` block in the source becomes a `match` on
  that value.  A storage-layer fault (I/O or transaction error raised by
  sqlite3 inside an operation) is modelled by an explicit `fault` argument:
  `some e` means the underlying storage raised `e` during the operation.
-/

namespace MedKB

/-- Python exception values, as far as the claims need to distinguish them. -/
inductive PyError where
  | nameError (name : String)
  | attributeError (attr : String)
  | keyError (key : String)
  | valueError (msg : String)
  | ioError (msg : String)
deriving DecidableEq

/-- `d[k]` / `d.get(k)` on an insertion-ordered dict: first binding of `k`. -/
def alookup {α : Type} (m : List (String × α)) (k : String) : Option α :=
  match m with
  | [] => none
  | (k', v) :: rest => if k' = k then some v else alookup rest k

/-- `d[k] = v` on an insertion-ordered dict: replace the first binding of `k`
in place, or append a new binding if `k` is absent. -/
def aset {α : Type} (m : List (String × α)) (k : String) (v : α) : List (String × α) :=
  match m with
  | [] => [(k, v)]
  | (k', v') :: rest => if k' = k then (k, v) :: rest else (k', v') :: aset rest k v

/-- `defaultdict(int)` increment: `d[k] += 1`. -/
def bumpCount (m : List (String × Nat)) (k : String) : List (String × Nat) :=
  aset m k ((alookup m k).getD 0 + 1)

/-- Python `max(items, key=lambda x: x[1])`: the first element with maximal
second component (later elements replace the champion only when strictly
greater). -/
def maxBySnd (l : List (String × ℚ)) : Option (String × ℚ) :=
  l.foldl
    (fun acc p =>
      match acc with
      | none => some p
      | some q => if p.2 > q.2 then some p else some q)
    none

/-! ## MatchingMatrix (src/intelligent_dispatch/matching_matrix.py) -/

/-- confidence map of one (domain, intent) cell: model name → confidence. -/
abbrev ModelMap := List (String × ℚ)

/-- nested domain → intent → model → confidence mapping. -/
abbrev Matrix := List (String × List (String × ModelMap))

/-- An entry of `MatchingMatrix.history` (`_record_selection` / `_record_update`).
Timestamps are irrelevant to every claim and omitted. -/
inductive HistoryEntry where
  | selection (domain intent_type model : String) (confidence : ℚ) (urgency : String)
  | update (domain intent_type model : String) (old_confidence new_confidence : ℚ)
deriving DecidableEq

/-- The mutable state of a `MatchingMatrix` instance. -/
structure MatrixState where
  matrix : Matrix
  history : List HistoryEntry
  model_call_count : List (String × Nat)
deriving DecidableEq

/-- The methods defined by `class MatchingMatrix` (matching_matrix.py).  Used to
decide attribute lookups on the instance: accessing any name outside this list
raises `AttributeError`. -/
def matrixMethods : List String :=
  ["get_best_model", "get_collaborative_models", "update_confidence", "save_matrix",
   "_record_selection", "_record_update", "get_history", "get_model_statistics"]

/-- `self.default_matrix` (matching_matrix.py lines 20-131). -/
def default_matrix : Matrix :=
  [("中医",
    [("诊断咨询", [("仲景模型", 0.95), ("TCMChat", 0.85), ("通用医学模型", 0.70)]),
     ("药物查询", [("仲景模型", 0.80), ("TCMChat", 0.92), ("通用医学模型", 0.65)]),
     ("治疗方案", [("仲景模型", 0.90), ("TCMChat", 0.82), ("通用医学模型", 0.60)]),
     ("健康建议", [("仲景模型", 0.88), ("TCMChat", 0.85), ("通用医学模型", 0.75)])]),
   ("西医",
    [("诊断咨询", [("仲景模型", 0.70), ("TCMChat", 0.65), ("通用医学模型", 0.90)]),
     ("药物查询", [("仲景模型", 0.60), ("TCMChat", 0.70), ("通用医学模型", 0.88)]),
     ("治疗方案", [("仲景模型", 0.65), ("TCMChat", 0.60), ("通用医学模型", 0.92)]),
     ("健康建议", [("仲景模型", 0.75), ("TCMChat", 0.72), ("通用医学模型", 0.85)])]),
   ("药理学",
    [("诊断咨询", [("仲景模型", 0.75), ("TCMChat", 0.80), ("通用医学模型", 0.85)]),
     ("药物查询", [("仲景模型", 0.82), ("TCMChat", 0.90), ("通用医学模型", 0.88)]),
     ("治疗方案", [("仲景模型", 0.70), ("TCMChat", 0.85), ("通用医学模型", 0.80)]),
     ("健康建议", [("仲景模型", 0.78), ("TCMChat", 0.82), ("通用医学模型", 0.80)])]),
   ("营养学",
    [("诊断咨询", [("仲景模型", 0.80), ("TCMChat", 0.75), ("通用医学模型", 0.82)]),
     ("药物查询", [("仲景模型", 0.70), ("TCMChat", 0.72), ("通用医学模型", 0.75)]),
     ("治疗方案", [("仲景模型", 0.85), ("TCMChat", 0.80), ("通用医学模型", 0.78)]),
     ("健康建议", [("仲景模型", 0.90), ("TCMChat", 0.85), ("通用医学模型", 0.88)])]),
   ("通用医学",
    [("诊断咨询", [("仲景模型", 0.80), ("TCMChat", 0.78), ("通用医学模型", 0.85)]),
     ("药物查询", [("仲景模型", 0.75), ("TCMChat", 0.80), ("通用医学模型", 0.82)]),
     ("治疗方案", [("仲景模型", 0.78), ("TCMChat", 0.75), ("通用医学模型", 0.85)]),
     ("健康建议", [("仲景模型", 0.82), ("TCMChat", 0.80), ("通用医学模型", 0.85)])])]

/-- A freshly constructed `MatchingMatrix()` (no config file). -/
def defaultState : MatrixState :=
  { matrix := default_matrix, history := [], model_call_count := [] }

/-- The fallback model name boosted under high urgency ("通用医学模型",
i.e. the GeneralModel of the spec). -/
def generalModel : String := "通用医学模型"

/-- The urgency boost of `get_best_model` (lines 176-179): multiply by 1.2,
then cap the result at 1.0 when it exceeds 1. -/
def capBoost (c : ℚ) : ℚ :=
  if c * 1.2 > 1 then 1 else c * 1.2

/-- The model map actually used for selection by `get_best_model`
(lines 173-179): under urgency "高", if a "通用医学模型" entry exists, work on a
copy in which that entry is boosted and capped; the original map is untouched. -/
def effectiveModels (models : ModelMap) (urgency : String) : ModelMap :=
  if urgency = "高" then
    match alookup models generalModel with
    | some c => aset models generalModel (capBoost c)
    | none => models
  else models

/-- `MatchingMatrix.get_best_model` (lines 150-190).  `Except.error` marks the
paths where the Python code would raise (`KeyError` when even the fallback
domain/intent is missing from a custom matrix, `ValueError` from `max` on an
empty model dict); with the default matrix these never occur. -/
def get_best_model (st : MatrixState) (domain intent_type urgency : String) :
    Except PyError ((String × ℚ) × MatrixState) :=
  let domain := if (alookup st.matrix domain).isSome then domain else "通用医学"
  match alookup st.matrix domain with
  | none => Except.error (PyError.keyError domain)
  | some intents =>
    let intent_type := if (alookup intents intent_type).isSome then intent_type else "诊断咨询"
    match alookup intents intent_type with
    | none => Except.error (PyError.keyError intent_type)
    | some models =>
      let models := effectiveModels models urgency
      match maxBySnd models with
      | none => Except.error (PyError.valueError "max() arg is an empty sequence")
      | some best =>
        Except.ok (best,
          { st with
            history := st.history ++
              [HistoryEntry.selection domain intent_type best.1 best.2 urgency],
            model_call_count := bumpCount st.model_call_count best.1 })

/-- The list comprehension at line 217: entries with confidence ≥ threshold, in
dict order. -/
def filterQualified (threshold : ℚ) : ModelMap → ModelMap
  | [] => []
  | p :: rest =>
    if p.2 ≥ threshold then p :: filterQualified threshold rest
    else filterQualified threshold rest

/-- Stable insertion used by `sortDescBySnd`: an element moves left past exactly
the elements with strictly smaller confidence, as Python's stable
`list.sort(key=lambda x: x[1], reverse=True)` does (line 220). -/
def insertDescBySnd (x : String × ℚ) : List (String × ℚ) → List (String × ℚ)
  | [] => [x]
  | y :: rest => if y.2 ≥ x.2 then y :: insertDescBySnd x rest else x :: y :: rest

/-- Stable descending sort by confidence (line 220). -/
def sortDescBySnd : List (String × ℚ) → List (String × ℚ)
  | [] => []
  | x :: rest => insertDescBySnd x (sortDescBySnd rest)

/-- `MatchingMatrix.get_collaborative_models` (lines 192-230). -/
def get_collaborative_models (st : MatrixState) (domain intent_type : String)
    (threshold : ℚ) (max_models : Nat) :
    Except PyError (List (String × ℚ) × MatrixState) :=
  let domain := if (alookup st.matrix domain).isSome then domain else "通用医学"
  match alookup st.matrix domain with
  | none => Except.error (PyError.keyError domain)
  | some intents =>
    let intent_type := if (alookup intents intent_type).isSome then intent_type else "诊断咨询"
    match alookup intents intent_type with
    | none => Except.error (PyError.keyError intent_type)
    | some models =>
      let qualified := filterQualified threshold models
      let sorted := sortDescBySnd qualified
      let collaborative := sorted.take max_models
      Except.ok (collaborative,
        { st with
          history := st.history ++ collaborative.map
            (fun p => HistoryEntry.selection domain intent_type p.1 p.2 "协同"),
          model_call_count := collaborative.foldl
            (fun acc p => bumpCount acc p.1) st.model_call_count })

/-- The routine EMA blend of `MatchingMatrix.update_confidence` (line 257):
`new = current * 0.9 + feedback * 0.1`. -/
def routineBlend (current feedback_score : ℚ) : ℚ :=
  current * 0.9 + feedback_score * 0.1

/-- `MatchingMatrix.update_confidence` (lines 232-262): `False` (no mutation)
when the (domain, intent, model) triple is unknown; otherwise the routine
blend replaces the entry and an update record is appended to the history. -/
def update_confidence (st : MatrixState) (domain intent_type model : String)
    (feedback_score : ℚ) : Bool × MatrixState :=
  match alookup st.matrix domain with
  | none => (false, st)
  | some intents =>
    match alookup intents intent_type with
    | none => (false, st)
    | some models =>
      match alookup models model with
      | none => (false, st)
      | some current =>
        let newc := routineBlend current feedback_score
        (true,
          { st with
            matrix := aset st.matrix domain (aset intents intent_type (aset models model newc)),
            history := st.history ++ [HistoryEntry.update domain intent_type model current newc] })

/-- Nested lookup of a (domain, intent, model) confidence entry. -/
def lookup3 (mx : Matrix) (domain intent_type model : String) : Option ℚ :=
  match alookup mx domain with
  | none => none
  | some intents =>
    match alookup intents intent_type with
    | none => none
    | some models => alookup models model

/-! ## ModelRouter (src/intelligent_dispatch/model_router.py)

The three adapters' `infer` bodies are simulated text generators that may in
principle raise; whether a given invocation succeeds is environmental.  An
adapter assignment `outcome : String → Except PyError String` gives, for the
model of that name, either the text `infer` returns or the exception it
raises (a lookup of an unregistered name is subsumed by the error case, since
in `route` and `_fallback_inference` the subscript `self.models[...]` sits
inside the same `try`). -/

/-- Insertion order of `self.models` (model_router.py lines 233-237): the fixed
registration order over which fallback iterates. -/
def registeredModels : List String := ["仲景模型", "TCMChat", "通用医学模型"]

/-- Fixed apology returned when fallback has no model left (line 337). -/
def apologyNoModels : String := "抱歉，系统暂时无法处理您的请求，请稍后再试。"

/-- Fixed apology returned when the fallback model also fails (line 347) and
when every collaborative model fails (line 315). -/
def apologyAllFailed : String := "抱歉，系统暂时无法处理您的请求，请稍后再试或重新表述您的问题。"

/-- The list comprehension at line 333: registered models other than the failed
one, in registration order. -/
def availableModels (failed_model : String) : List String :=
  registeredModels.filter (fun n => n ≠ failed_model)

/-- `ModelRouter._fallback_inference` (lines 320-347): try the first available
model; catch its error and answer with the fixed apology. -/
def fallback_inference (outcome : String → Except PyError String)
    (failed_model : String) : String :=
  match availableModels failed_model with
  | [] => apologyNoModels
  | backup_model :: _ =>
    match outcome backup_model with
    | Except.ok r => r
    | Except.error _ => apologyAllFailed

/-- `ModelRouter._merge_results` (lines 349-383) over the collected successes
(an insertion-ordered dict model → text).  The final `next(iter(...))` branch
takes the first entry; callers guarantee the dict is nonempty, so the
`.getD` default is never read. -/
def merge_results (results : List (String × String)) (domain intent_type : String) : String :=
  if domain = "中医" ∧ (alookup results "仲景模型").isSome then
    let primary_response := (alookup results "仲景模型").getD ""
    if intent_type = "药物查询" ∧ (alookup results "TCMChat").isSome then
      primary_response ++ "\n\n此外，TCMChat还推荐：" ++ (alookup results "TCMChat").getD ""
    else primary_response
  else if domain = "西医" ∧ (alookup results "通用医学模型").isSome then
    (alookup results "通用医学模型").getD ""
  else if (intent_type.splitOn "药物").length > 1 ∧ (alookup results "TCMChat").isSome then
    (alookup results "TCMChat").getD ""
  else ((results.headD ("", "")).2)

/-- `ModelRouter._collaborative_inference` (lines 279-318).  The qualifying
models run in a thread pool; a failed sibling is dropped, the successes are
collected into a dict.  We collect in submission order — the actual dict order
is completion order, a nondeterminism the merge's final branch inherits (spec
§9 flags it); every other merge branch is order-independent. -/
def collaborative_inference (st : MatrixState)
    (outcome : String → Except PyError String) (domain intent_type : String) :
    Except PyError (String × MatrixState) :=
  match get_collaborative_models st domain intent_type 0.8 2 with
  | Except.error e => Except.error e
  | Except.ok (collaborative_models, st') =>
    let results := collaborative_models.foldl
      (fun acc p =>
        match outcome p.1 with
        | Except.ok r => acc ++ [(p.1, r)]
        | Except.error _ => acc)
      []
    if results.isEmpty then Except.ok (apologyAllFailed, st')
    else Except.ok (merge_results results domain intent_type, st')

/-- `ModelRouter.route` (lines 244-277).  `intent_data.get` defaults are applied
as in the source.  A `KeyError`/`ValueError` escaping `get_best_model` (possible
only with a misconfigured custom matrix) is uncaught and propagates; an adapter
failure on the direct path is caught at lines 274-277 and answered through
`fallback_inference`. -/
def route (st : MatrixState) (outcome : String → Except PyError String)
    (intent_domain intent_type intent_urgency : Option String) :
    Except PyError (String × MatrixState) :=
  let domain := intent_domain.getD "通用医学"
  let intent := intent_type.getD "诊断咨询"
  let urgency := intent_urgency.getD "低"
  match get_best_model st domain intent urgency with
  | Except.error e => Except.error e
  | Except.ok ((best_model_name, confidence), st') =>
    if confidence < 0.7 then collaborative_inference st' outcome domain intent
    else
      match outcome best_model_name with
      | Except.ok r => Except.ok (r, st')
      | Except.error _ => Except.ok (fallback_inference outcome best_model_name, st')

/-! ## KnowledgeRepository (src/knowledge_store/knowledge_repository.py)

The SQLite tables become lists of rows.  Each public operation opens its own
connection; multi-statement writes are committed together at the end (or rolled
back when the connection is closed or dropped uncommitted), so an operation
either applies its whole row set or leaves the database unchanged. -/

/-- A row of `knowledge_items` (schema lines 57-74).  `metadata` is the opaque
JSON payload. -/
structure KnowledgeRow where
  id : String
  query : String
  original_response : String
  cleaned_response : String
  domain : String
  intent_type : String
  tier : String
  quality_score : ℚ
  feedback_score : ℚ
  usage_count : Nat
  created_at : Nat
  updated_at : Nat
  expires_at : Nat
  metadata : String
deriving DecidableEq

/-- A row of `keywords` (schema lines 82-90).  The schema declares
`FOREIGN KEY ... ON DELETE CASCADE`, but no connection in the module ever
executes `PRAGMA foreign_keys=ON`, and Python's sqlite3 leaves foreign-key
enforcement off by default — so the declared cascade never fires at runtime. -/
structure KeywordRow where
  keyword : String
  knowledge_id : String
  weight : ℚ
deriving DecidableEq

/-- A row of `user_feedback` (schema lines 96-106); same inert cascade. -/
structure FeedbackRow where
  knowledge_id : String
  user_id : String
  score : ℚ
  comment : Option String
  created_at : Nat
deriving DecidableEq

/-- The three tables created by `_init_database`. -/
structure Database where
  items : List KnowledgeRow
  keywords : List KeywordRow
  feedback : List FeedbackRow
deriving DecidableEq

/-- The `knowledge_item` dict handed to `store` by its callers. -/
structure KnowledgeInput where
  original_response : String
  cleaned_response : String
  metadata : String
deriving DecidableEq

/-- The module-level imports of knowledge_repository.py (lines 6-12).  Note the
absence of `re`, which `_simple_tokenize` (line 522) nevertheless references. -/
def repositoryImports : List String :=
  ["os", "json", "time", "logging", "datetime", "sqlite3", "collections"]

/-- The methods defined by `class KnowledgeRepository`.  `FeedbackOptimizer`
additionally calls `retrieve_by_id`, which is not among them: that attribute
access raises `AttributeError` (only the mock repository in the module's
`__main__` test block defines it). -/
def repositoryMethods : List String :=
  ["store", "retrieve", "update_feedback", "cleanup_expired", "get_statistics",
   "_init_database", "_determine_tier", "_generate_id", "_extract_keywords",
   "_simple_tokenize"]

/-- `self.tier_thresholds` (lines 35-39) applied by `_determine_tier`
(lines 473-480): core at ≥ 0.85, extended at ≥ 0.7, else temporary. -/
def determine_tier (quality_score : ℚ) : String :=
  if quality_score ≥ 0.85 then "core"
  else if quality_score ≥ 0.7 then "extended"
  else "temporary"

/-- `self.expiry_times` in seconds (lines 42-46).  Only the three tier names
occur as keys; any other subscript would raise `KeyError` in Python, but every
caller passes a `_determine_tier` result. -/
def expiry_times (tier : String) : Nat :=
  if tier = "core" then 180 * 24 * 60 * 60
  else if tier = "extended" then 90 * 24 * 60 * 60
  else 30 * 24 * 60 * 60

/-- `KnowledgeRepository._simple_tokenize` (lines 519-540).  Its first statement
evaluates `re.sub(r'[^\w\s]', ' ', text)`, and `re` is not bound at module
scope (`repositoryImports`), so every call raises
`NameError: name 're' is not defined` before producing any token; the
tokenization code after that line is unreachable and carries no observable
behaviour to model. -/
def simple_tokenize (_text : String) : Except PyError (List String) :=
  Except.error (PyError.nameError "re")

/-- Frequency weighting of `_extract_keywords` (lines 501-517) over a token
list: per-token counts, weight = frequency / total tokens, single-character
words dropped, stable-sorted by weight descending, top 20 kept. -/
def keywordWeights (tokens : List String) : List (String × ℚ) :=
  let total_tokens : ℚ := tokens.length
  let words := tokens.eraseDups
  let keywords := (words.filter (fun w => w.length > 1)).map
    (fun w => (w, (tokens.count w : ℚ) / total_tokens))
  (sortDescBySnd keywords).take 20

/-- `KnowledgeRepository._extract_keywords` (lines 488-517): tokenize the
concatenated query and response, then weight.  The tokenizer's `NameError`
passes through. -/
def extract_keywords (query response : String) : Except PyError (List (String × ℚ)) :=
  match simple_tokenize (query ++ " " ++ response) with
  | Except.error e => Except.error e
  | Except.ok tokens => Except.ok (keywordWeights tokens)

/-- `KnowledgeRepository.store` (lines 116-186).  `fault` models a
storage-layer error raised by sqlite3 inside the operation; the handler at
lines 184-186 logs and **re-raises**, so it surfaces as `Except.error`.  With a
healthy storage layer the operation still raises: the keyword extraction at
line 171 hits `_simple_tokenize`'s `NameError`, the same handler re-raises it,
and the uncommitted `INSERT` of the item row is rolled back, so `store` never
succeeds as the module stands.  The success branch is kept for the (currently
unreachable) case of the extractor returning tokens. -/
def store (db : Database) (fault : Option PyError) (item : KnowledgeInput)
    (query : String) (intent_domain intent_type : Option String)
    (quality_score : ℚ) (now : Nat) (knowledge_id : String) :
    Except PyError (String × Database) :=
  match fault with
  | some e => Except.error e
  | none =>
    let tier := determine_tier quality_score
    let expires_at := now + expiry_times tier
    let domain := intent_domain.getD "通用医学"
    let intent := intent_type.getD "诊断咨询"
    match extract_keywords query item.cleaned_response with
    | Except.error e => Except.error e
    | Except.ok keywords =>
      let row : KnowledgeRow :=
        { id := knowledge_id, query := query,
          original_response := item.original_response,
          cleaned_response := item.cleaned_response,
          domain := domain, intent_type := intent, tier := tier,
          quality_score := quality_score, feedback_score := 0, usage_count := 0,
          created_at := now, updated_at := now, expires_at := expires_at,
          metadata := item.metadata }
      Except.ok (knowledge_id,
        { db with
          items := db.items ++ [row],
          keywords := db.keywords ++ keywords.map
            (fun p => { keyword := p.1, knowledge_id := knowledge_id, weight := p.2 }) })

/-- `KnowledgeRepository.retrieve` (lines 188-281).  Line 206 evaluates
`self._simple_tokenize(query)` before any SQL runs; the resulting `NameError`
(see `simple_tokenize`) lands in the handler at lines 279-281, which logs and
returns the empty list — as does a storage-layer fault.  So `retrieve` always
returns `[]` and touches nothing.  The phase-1 exact-match query, the phase-2
keyword query and the usage-count update (lines 213-256) are unreachable and
not modelled. -/
def retrieve (db : Database) (fault : Option PyError) (query : String)
    (_intent_domain _intent_type : Option String) (_now : Nat) (_limit : Nat) :
    Except PyError (List KnowledgeRow × Database) :=
  match fault with
  | some _ => Except.ok ([], db)
  | none =>
    match simple_tokenize query with
    | Except.error _ => Except.ok ([], db)
    | Except.ok _ => Except.ok ([], db)

/-- `new_feedback_score` of `update_feedback` (lines 322-328): blend
`old*0.7 + score*0.3` when a positive feedback score is already stored,
otherwise take the raw score (the code's test for "first feedback"). -/
def new_feedback_score (row : KnowledgeRow) (score : ℚ) : ℚ :=
  if row.feedback_score > 0 then row.feedback_score * 0.7 + score * 0.3
  else score

/-- `combined_score` of `update_feedback` (line 331):
`quality*0.6 + newFeedback*0.4`. -/
def combined_score (row : KnowledgeRow) (score : ℚ) : ℚ :=
  row.quality_score * 0.6 + new_feedback_score row score * 0.4

/-- `new_tier` of `update_feedback` (line 334). -/
def new_tier (row : KnowledgeRow) (score : ℚ) : String :=
  determine_tier (combined_score row score)

/-- The row image of the `UPDATE knowledge_items SET ...` of `update_feedback`
(lines 342-354): new feedback score, recomputed tier, fresh `updated_at`, and
`expires_at` reset exactly when the tier changed (lines 336-340). -/
def updatedRow (row : KnowledgeRow) (score : ℚ) (now : Nat) : KnowledgeRow :=
  { row with
    feedback_score := new_feedback_score row score,
    tier := new_tier row score, updated_at := now,
    expires_at :=
      if new_tier row score ≠ row.tier then now + expiry_times (new_tier row score)
      else row.expires_at }

/-- `KnowledgeRepository.update_feedback` (lines 283-364).  The feedback
`INSERT` (line 302) precedes the existence check; when the id is unknown the
connection is closed without commit, rolling that insert back, and `False` is
returned.  Otherwise: first feedback is decided by `feedback_score > 0` on the
stored row (line 323), the new feedback score, combined score and tier are as
in `new_feedback_score` / `combined_score` / `new_tier`, and `expires_at` is
reset to `now + expiry` exactly when the tier changed (lines 336-340).  A
storage-layer fault is caught at lines 362-364 and turned into `False`. -/
def update_feedback (db : Database) (fault : Option PyError)
    (knowledge_id user_id : String) (score : ℚ) (comment : Option String)
    (now : Nat) : Except PyError (Bool × Database) :=
  match fault with
  | some _ => Except.ok (false, db)
  | none =>
    match db.items.find? (fun r => r.id == knowledge_id) with
    | none => Except.ok (false, db)
    | some row =>
      Except.ok (true,
        { db with
          items := db.items.map (fun r =>
            if r.id == knowledge_id then updatedRow row score now else r),
          feedback := db.feedback ++
            [{ knowledge_id := knowledge_id, user_id := user_id, score := score,
               comment := comment, created_at := now }] })

/-- `KnowledgeRepository.cleanup_expired` (lines 366-399): count, then delete,
the items with `expires_at < now`.  Only `knowledge_items` is touched: the
schema's `ON DELETE CASCADE` is inert (no `PRAGMA foreign_keys=ON`, see
`KeywordRow`), so keyword and feedback rows of deleted items survive with
dangling ids.  A storage-layer fault is caught at lines 397-399 and turned
into a `0` return. -/
def cleanup_expired (db : Database) (fault : Option PyError) (now : Nat) :
    Except PyError (Nat × Database) :=
  match fault with
  | some _ => Except.ok (0, db)
  | none =>
    let expired_count := (db.items.filter (fun r => decide (r.expires_at < now))).length
    Except.ok (expired_count,
      { db with items := db.items.filter (fun r => !decide (r.expires_at < now)) })

/-- feedback score of the item with the given id, as stored. -/
def itemScore (db : Database) (knowledge_id : String) : Option ℚ :=
  (db.items.find? (fun r => r.id == knowledge_id)).map (fun r => r.feedback_score)

/-- tier of the item with the given id, as stored. -/
def itemTier (db : Database) (knowledge_id : String) : Option String :=
  (db.items.find? (fun r => r.id == knowledge_id)).map (fun r => r.tier)

/-- expiry of the item with the given id, as stored. -/
def itemExpires (db : Database) (knowledge_id : String) : Option Nat :=
  (db.items.find? (fun r => r.id == knowledge_id)).map (fun r => r.expires_at)

/-! ## FeedbackOptimizer (src/knowledge_store/feedback_optimizer.py) -/

/-- An entry of `self.feedback_history` (lines 73-80 / 141-148). -/
inductive FeedbackRecord where
  | explicit (knowledge_id user_id : String) (score : ℚ) (comment : Option String)
      (timestamp : Nat)
  | implicit (knowledge_id user_id behavior : String) (implicit_score : ℚ)
      (timestamp : Nat)
deriving DecidableEq

/-- A `self.model_performance` entry (lines 48-53). -/
structure PerfStat where
  total_queries : Nat
  positive_feedback : Nat
  negative_feedback : Nat
  avg_score : ℚ
deriving DecidableEq

/-- The optimizer's own mutable state (the matrix and repository it holds are
passed alongside). -/
structure OptimizerState where
  feedback_history : List FeedbackRecord
  model_performance : List (String × PerfStat)
deriving DecidableEq

/-- `self.feedback_weights` (lines 28-31). -/
def feedback_weights : List (String × ℚ) := [("explicit", 0.7), ("implicit", 0.3)]

/-- `self.implicit_score_mapping` (lines 34-42). -/
def implicit_score_mapping : List (String × ℚ) :=
  [("click", 0.6), ("copy", 0.7), ("share", 0.8), ("bookmark", 0.9),
   ("follow_recommendation", 0.8), ("ignore", 0.3), ("quick_exit", 0.2)]

/-- `FeedbackOptimizer.process_explicit_feedback` (lines 57-118).  The history
record is appended before the store update is attempted and survives every
outcome.  When `intent_data` is provided and the store update succeeded,
line 89 accesses `self.knowledge_repository.retrieve_by_id`;
`KnowledgeRepository` defines no such attribute (`repositoryMethods`), so an
`AttributeError` is raised and the handler at lines 116-118 returns `False` —
the matrix update and performance bookkeeping of lines 90-111 are unreachable
(they are exercised only by the mock repository in the module's test block). -/
def process_explicit_feedback (fs : OptimizerState) (db : Database)
    (mx : MatrixState) (fault : Option PyError) (knowledge_id user_id : String)
    (score : ℚ) (comment : Option String) (intent_data : Bool) (now : Nat) :
    Bool × OptimizerState × Database × MatrixState :=
  let fs := { fs with
    feedback_history := fs.feedback_history ++
      [FeedbackRecord.explicit knowledge_id user_id score comment now] }
  match update_feedback db fault knowledge_id user_id score comment now with
  | Except.error _ => (false, fs, db, mx)
  | Except.ok (success, db') =>
    if intent_data ∧ success = true then
      if repositoryMethods.contains "retrieve_by_id" then (success, fs, db', mx)
      else (false, fs, db', mx)
    else (success, fs, db', mx)

/-- `FeedbackOptimizer.process_implicit_feedback` (lines 120-179): map the
behaviour to its base score (0.5 for unknown behaviours, line 138), append the
history record, scale by the implicit channel weight 0.3, and forward exactly
as the explicit path does — including the unreachable `retrieve_by_id` branch
(line 162) whose `AttributeError` makes the handler at lines 177-179 return
`False` whenever `intent_data` is provided and the store update succeeded. -/
def process_implicit_feedback (fs : OptimizerState) (db : Database)
    (mx : MatrixState) (fault : Option PyError) (knowledge_id user_id : String)
    (behavior : String) (intent_data : Bool) (now : Nat) :
    Bool × OptimizerState × Database × MatrixState :=
  let implicit_score := (alookup implicit_score_mapping behavior).getD 0.5
  let fs := { fs with
    feedback_history := fs.feedback_history ++
      [FeedbackRecord.implicit knowledge_id user_id behavior implicit_score now] }
  let weighted_score := implicit_score * ((alookup feedback_weights "implicit").getD 0)
  match update_feedback db fault knowledge_id user_id weighted_score
      (some ("隐性反馈: " ++ behavior)) now with
  | Except.error _ => (false, fs, db, mx)
  | Except.ok (success, db') =>
    if intent_data ∧ success = true then
      if repositoryMethods.contains "retrieve_by_id" then (success, fs, db', mx)
      else (false, fs, db', mx)
    else (success, fs, db', mx)

/-- `total_feedback` of `FeedbackOptimizer.get_feedback_statistics` (line 331):
the raw length of the in-memory history, with no regard to whether any
recorded feedback was ever applied.  (`analyze_feedback_trends` would report
the same total at line 254, but that line is unreachable in production — see
`analyze_feedback_trends`.) -/
def feedback_statistics_total (fs : OptimizerState) : Nat :=
  fs.feedback_history.length

/-- timestamp of a `feedback_history` record. -/
def feedbackTimestamp : FeedbackRecord → Nat
  | FeedbackRecord.explicit _ _ _ _ t => t
  | FeedbackRecord.implicit _ _ _ _ t => t

/-- The result statuses `analyze_feedback_trends` can return: the `no_data`
dict (line 203), the `error` dict built from the caught exception
(lines 266-268), or the `success` dict (lines 252-261), of which we carry the
claim-relevant `total_feedback` field (line 254). -/
inductive TrendsResult where
  | no_data
  | error (e : PyError)
  | success (total_feedback : Nat)
deriving DecidableEq

/-- `FeedbackOptimizer.analyze_feedback_trends` (lines 181-268).  The window
filter keeps records with timestamp ≥ start_time (the source compares
same-format ISO strings, which agrees with chronological order).  An empty
window returns the `no_data` status (lines 202-203).  Otherwise the daily
bucketing (lines 205-215) touches no repository, but the model-grouping loop's
first iteration evaluates `self.knowledge_repository.retrieve_by_id`
(line 222) — every history record carries a `knowledge_id` — and
`KnowledgeRepository` defines no such attribute (`repositoryMethods`): the
`AttributeError` is caught at lines 266-268 and the error dict is returned.
The success dict (lines 252-261) is unreachable in production. -/
def analyze_feedback_trends (fs : OptimizerState) (start_time : Nat) : TrendsResult :=
  let recent_feedback := fs.feedback_history.filter
    (fun f => decide (start_time ≤ feedbackTimestamp f))
  if recent_feedback.isEmpty then TrendsResult.no_data
  else if repositoryMethods.contains "retrieve_by_id" then
    TrendsResult.success recent_feedback.length
  else TrendsResult.error (PyError.attributeError "retrieve_by_id")

/-- `FeedbackOptimizer.optimize_model_weights` (lines 270-320).  With an empty
`model_performance` it returns `False` at line 283.  Otherwise line 286
evaluates `self.matching_matrix.get_domains()`; `MatchingMatrix` defines no
such method (`matrixMethods`), so an `AttributeError` is raised and the handler
at lines 318-320 returns `False`.  Either way the matrix is untouched and no
snapshot is saved; the optimization loop (lines 290-315) — which would feed
`current*0.8 + avg_score*0.2` through `update_confidence`'s 0.9/0.1 blend
rather than writing it directly — is unreachable. -/
def optimize_model_weights (fs : OptimizerState) (st : MatrixState) :
    Bool × MatrixState :=
  if fs.model_performance.isEmpty then (false, st)
  else if matrixMethods.contains "get_domains" then (true, st)
  else (false, st)

/-! ## Concrete fixtures used by witnesses and counterexamples -/

/-- A knowledge item row with the fields the claims do not vary held fixed. -/
def mkRow (id domain tier : String) (quality_score : ℚ) (expires_at : Nat) :
    KnowledgeRow :=
  { id := id, query := "咳嗽发烧怎么办", original_response := "原始回答",
    cleaned_response := "清洗后回答", domain := domain, intent_type := "诊断咨询",
    tier := tier, quality_score := quality_score, feedback_score := 0,
    usage_count := 0, created_at := 0, updated_at := 0, expires_at := expires_at,
    metadata := "{}" }

/-- Database for the C2 counterexample: one live item. -/
def db2 : Database :=
  { items := [mkRow "k1" "西医" "extended" 0.8 50], keywords := [], feedback := [] }

/-- Database for the C3 evaluation: item k1 expired at 5, item k2 expiring at
100, one keyword row and one feedback row attached to each of k1/k2's tables. -/
def db3 : Database :=
  { items := [mkRow "k1" "中医" "extended" 0.8 5, mkRow "k2" "中医" "core" 0.9 100],
    keywords := [{ keyword := "咳嗽", knowledge_id := "k1", weight := 0.5 },
                 { keyword := "头痛", knowledge_id := "k2", weight := 0.5 }],
    feedback := [{ knowledge_id := "k1", user_id := "u1", score := 0.8,
                   comment := none, created_at := 3 }] }

/-- What `cleanup_expired db3 none 10` actually leaves behind. -/
def db3After : Database :=
  { items := [mkRow "k2" "中医" "core" 0.9 100],
    keywords := db3.keywords, feedback := db3.feedback }

/-- Optimizer state for the C4 evaluation: one model with 12 accumulated
queries, all positive. -/
def fs4 : OptimizerState :=
  { feedback_history := [],
    model_performance := [("仲景模型",
      { total_queries := 12, positive_feedback := 12, negative_feedback := 0,
        avg_score := 1 })] }

/-- Fresh optimizer state (empty history, no performance data). -/
def fs0 : OptimizerState := { feedback_history := [], model_performance := [] }

/-- Database for the C5 evaluation: one stored core-tier item. -/
def db5 : Database :=
  { items := [mkRow "k1" "中医" "core" 0.9 15552000], keywords := [], feedback := [] }

/-- What the C5 bookmark feedback leaves in the store: feedbackScore 0.27,
combined score 0.648 ⇒ tier temporary, expiry reset to 10 + 30 days. -/
def db5After : Database :=
  { items := [{ mkRow "k1" "中医" "temporary" 0.9 2592010 with
                feedback_score := 0.27, updated_at := 10 }],
    keywords := [],
    feedback := [{ knowledge_id := "k1", user_id := "u1", score := 0.27,
                   comment := some "隐性反馈: bookmark", created_at := 10 }] }

/-- The optimizer state after the C5 bookmark feedback: exactly the one
history record. -/
def fs5After : OptimizerState :=
  { feedback_history := [FeedbackRecord.implicit "k1" "u1" "bookmark" 0.9 10],
    model_performance := [] }

/-- Database for the C7 runs: one extended-tier item with no feedback yet. -/
def db7 : Database :=
  { items := [mkRow "k1" "中医" "extended" 0.8 1000], keywords := [], feedback := [] }

/-- db7 after a first feedback of score 0: feedbackScore stays 0, combined
score 0.48 ⇒ tier drops to temporary, expiry reset to 10 + 30 days. -/
def db7AfterZero : Database :=
  { items := [{ mkRow "k1" "中医" "temporary" 0.8 2592010 with updated_at := 10 }],
    keywords := [],
    feedback := [{ knowledge_id := "k1", user_id := "u1", score := 0,
                   comment := none, created_at := 10 }] }

/-- Empty database (used by the C10 witness: feedback on an unknown id). -/
def dbEmpty : Database := { items := [], keywords := [], feedback := [] }

/-- Adapter outcomes for the C6 witness: ZhongJing answers, everything else
fails. -/
def outcomeW : String → Except PyError String := fun n =>
  if n = "仲景模型" then Except.ok "辨证论治建议"
  else Except.error (PyError.ioError "inference failed")

/-- Matrix state after the C6 witness selection (ZhongJing, 0.95, urgency 中). -/
def c6State : MatrixState :=
  { matrix := default_matrix,
    history := [HistoryEntry.selection "中医" "诊断咨询" "仲景模型" 0.95 "中"],
    model_call_count := [("仲景模型", 1)] }

/-- Matrix state after the C9 witness selection: under high urgency the boosted
GeneralModel entry 0.9 * 1.2 is capped at 1.0 and wins. -/
def c9State : MatrixState :=
  { matrix := default_matrix,
    history := [HistoryEntry.selection "西医" "诊断咨询" "通用医学模型" 1 "高"],
    model_call_count := [("通用医学模型", 1)] }

/-! ## Theorems -/

/-- C1: as the module stands, `store` can never succeed and `retrieve` can
never return an item: `knowledge_repository.py` does not import `re`, so
`_simple_tokenize` raises `NameError` on every call; `store` re-raises it
(after rolling back the uncommitted row) and `retrieve`'s handler turns it
into the empty list.  The claimed store-then-retrieve phase-1 hit is therefore
impossible for every input. -/
theorem claim1_store_raises_retrieve_empty (db : Database) (item : KnowledgeInput)
    (query : String) (intent_domain intent_type : Option String)
    (quality_score : ℚ) (now limit : Nat) (knowledge_id : String) :
    store db none item query intent_domain intent_type quality_score now knowledge_id
      = Except.error (PyError.nameError "re")
  ∧ retrieve db none query intent_domain intent_type now limit = Except.ok ([], db) :=
  ⟨rfl, rfl⟩

/-- C2 (counterexample): a storage-layer I/O error raised inside
`cleanup_expired` does not propagate — the operation returns the default
count 0 with the database untouched, contradicting the claim that every
TieredStore operation lets such errors reach the caller. -/
theorem claim2_counterexample_cleanup_swallows :
    cleanup_expired db2 (some (PyError.ioError "disk I/O error")) 100
      = Except.ok (0, db2)
  ∧ cleanup_expired db2 (some (PyError.ioError "disk I/O error")) 100
      ≠ Except.error (PyError.ioError "disk I/O error") :=
  ⟨rfl, by intro h; simp [cleanup_expired] at h⟩

/-- C2 (amended): only `store` re-raises a storage-layer error; `retrieve`,
`update_feedback` and `cleanup_expired` catch every exception and return their
default values `[]`, `False` and `0` respectively, leaving the database as it
was. -/
theorem claim2_amended_only_store_propagates (db : Database) (e : PyError)
    (item : KnowledgeInput) (query : String) (intent_domain intent_type : Option String)
    (quality_score score : ℚ) (now limit : Nat) (knowledge_id user_id : String)
    (comment : Option String) :
    store db (some e) item query intent_domain intent_type quality_score now knowledge_id
      = Except.error e
  ∧ retrieve db (some e) query intent_domain intent_type now limit = Except.ok ([], db)
  ∧ update_feedback db (some e) knowledge_id user_id score comment now
      = Except.ok (false, db)
  ∧ cleanup_expired db (some e) now = Except.ok (0, db) :=
  ⟨rfl, rfl, rfl, rfl⟩

/-- C3: `cleanup_expired` on a database holding an expired item (k1) and a
live one (k2) reports 1 deletion and removes exactly the expired item's row,
but the keyword row and the feedback row of k1 survive as orphans — the
schema's `ON DELETE CASCADE` never fires because `PRAGMA foreign_keys=ON` is
never executed.  The live item and its rows are untouched. -/
theorem claim3_cleanup_leaves_orphan_rows :
    cleanup_expired db3 none 10 = Except.ok (1, db3After)
  ∧ db3After.items.find? (fun r => r.id == "k1") = none
  ∧ db3After.keywords.find? (fun kw => kw.knowledge_id == "k1")
      = some { keyword := "咳嗽", knowledge_id := "k1", weight := 0.5 }
  ∧ db3After.feedback.find? (fun fb => fb.knowledge_id == "k1")
      = some { knowledge_id := "k1", user_id := "u1", score := 0.8,
               comment := none, created_at := 3 }
  ∧ db3After.items = [mkRow "k2" "中医" "core" 0.9 100] :=
  ⟨rfl, rfl, rfl, rfl, rfl⟩

/-- C4: with a model that has accumulated 12 queries (all positive),
`optimize_model_weights` still recomputes nothing: line 286 trips over the
missing `MatchingMatrix.get_domains` attribute, the handler returns `False`,
and the confidence table is byte-for-byte unchanged — no triple receives
`0.8*current + 0.2*positiveRatio` and no snapshot is persisted. -/
theorem claim4_optimize_model_weights_noop :
    optimize_model_weights fs4 defaultState = (false, defaultState)
  ∧ fs4.model_performance.isEmpty = false
  ∧ matrixMethods.contains "get_domains" = false :=
  ⟨rfl, rfl, rfl⟩

/-- C5: an implicit "bookmark" on a stored item does put the weighted score
0.9 × 0.3 = 0.27 into the item's feedbackScore, but the ConfidenceTable is
never updated: line 162's `retrieve_by_id` raises `AttributeError` (the real
repository has no such method), the handler returns `False`, and the matrix
state comes back exactly as it went in. -/
theorem claim5_bookmark_reaches_store_not_matrix :
    process_implicit_feedback fs0 db5 defaultState none "k1" "u1" "bookmark" true 10
      = (false, fs5After, db5After, defaultState)
  ∧ itemScore db5After "k1" = some 0.27
  ∧ (0.9 * 0.3 : ℚ) = 0.27 := by
  refine ⟨?_, rfl, by norm_num⟩
  simp +decide [process_implicit_feedback, update_feedback, implicit_score_mapping,
    feedback_weights, alookup, fs0, db5, mkRow, db5After, fs5After, new_feedback_score,
    combined_score, new_tier, updatedRow, determine_tier, expiry_times,
    repositoryMethods, itemScore]
  all_goals norm_num
  all_goals decide

/-- Updating a dict key makes it the binding the next lookup sees. -/
theorem alookup_aset {α : Type} (m : List (String × α)) (k : String) (v : α) :
    alookup (aset m k v) k = some v := by
  induction m with
  | nil => simp [aset, alookup]
  | cons p rest ih =>
    obtain ⟨k', v'⟩ := p
    by_cases h : k' = k
    · simp [aset, alookup, h]
    · simp [aset, alookup, h, ih]

/-- The row the SQL `UPDATE ... WHERE id = ?` rewrites is the one `find?`
sees afterwards, provided the replacement keeps the id. -/
theorem find?_map_update (l : List KnowledgeRow) (knowledge_id : String)
    (row upd : KnowledgeRow)
    (hfind : l.find? (fun r => r.id == knowledge_id) = some row)
    (hid : upd.id = row.id) :
    (l.map (fun r => if r.id == knowledge_id then upd else r)).find?
      (fun r => r.id == knowledge_id) = some upd := by
  induction l with
  | nil => simp at hfind
  | cons a t ih =>
    by_cases h : (a.id == knowledge_id) = true
    · simp only [List.find?_cons, h] at hfind
      have ha : a = row := by injection hfind
      have hupd : (upd.id == knowledge_id) = true := by
        rw [hid, ← ha]; exact h
      simp only [List.map_cons, h, if_true, List.find?_cons, hupd]
    · have h' : (a.id == knowledge_id) = false := by
        exact Bool.not_eq_true _ |>.mp h
      simp only [List.find?_cons, h'] at hfind
      simp only [List.map_cons, h', Bool.false_eq_true, if_false, List.find?_cons,
        ih hfind]

/-- C7 (amended): for an existing id, `update_feedback` appends the feedback
row and sets feedbackScore per `new_feedback_score` — the raw score whenever
the stored feedbackScore is not positive (the code's proxy for "first
feedback"), else `0.7*old + 0.3*score` — recomputes the combined score and
tier, and resets expiresAt exactly when the tier changed. -/
theorem claim7_amended_update_feedback (db : Database)
    (knowledge_id user_id : String) (score : ℚ) (comment : Option String)
    (now : Nat) (row : KnowledgeRow)
    (hfind : db.items.find? (fun r => r.id == knowledge_id) = some row) :
    (update_feedback db none knowledge_id user_id score comment now).map
        (fun r => r.1) = Except.ok true
  ∧ (update_feedback db none knowledge_id user_id score comment now).map
        (fun r => r.2.feedback)
      = Except.ok (db.feedback ++
          [{ knowledge_id := knowledge_id, user_id := user_id, score := score,
             comment := comment, created_at := now }])
  ∧ (update_feedback db none knowledge_id user_id score comment now).map
        (fun r => itemScore r.2 knowledge_id)
      = Except.ok (some (new_feedback_score row score))
  ∧ (update_feedback db none knowledge_id user_id score comment now).map
        (fun r => itemTier r.2 knowledge_id)
      = Except.ok (some (new_tier row score))
  ∧ (update_feedback db none knowledge_id user_id score comment now).map
        (fun r => itemExpires r.2 knowledge_id)
      = Except.ok (some
          (if new_tier row score ≠ row.tier
           then now + expiry_times (new_tier row score) else row.expires_at)) := by
  have h := find?_map_update db.items knowledge_id row (updatedRow row score now)
    hfind rfl
  refine ⟨?_, ?_, ?_, ?_, ?_⟩ <;>
    simp only [update_feedback, hfind, Except.map, itemScore, itemTier, itemExpires,
      h, Option.map] <;>
    rfl

/-- C7 (witness): instantiating the amended theorem on db7's item, whose
stored feedbackScore is 0, a feedback of 0.9 sets feedbackScore to 0.9. -/
theorem claim7_amended_witness :
    (update_feedback db7 none "k1" "u9" 0.9 none 50).map
        (fun r => itemScore r.2 "k1")
      = Except.ok (some 0.9) := by
  have hsc :=
    (claim7_amended_update_feedback db7 "k1" "u9" 0.9 none 50
      (mkRow "k1" "中医" "extended" 0.8 1000) rfl).2.2.1
  norm_num [new_feedback_score, mkRow] at hsc ⊢
  exact hsc

/-- C7 (counterexample): after a first feedback of score 0 (which leaves the
stored feedbackScore at 0), a second feedback of 0.5 is *not* blended as the
claim's `0.7*old + 0.3*score = 0.15`: the code treats it as first feedback
again and sets feedbackScore to 0.5. -/
theorem claim7_counterexample_zero_score_feedback :
    update_feedback db7 none "k1" "u1" 0 none 10 = Except.ok (true, db7AfterZero)
  ∧ db7AfterZero.feedback.length = 1
  ∧ (match update_feedback db7AfterZero none "k1" "u2" 0.5 none 20 with
     | Except.ok r => itemScore r.2 "k1"
     | Except.error _ => none) = some 0.5
  ∧ (0.5 : ℚ) ≠ 0.7 * 0 + 0.3 * 0.5 := by
  refine ⟨?_, rfl, ?_, by norm_num⟩
  · simp +decide [update_feedback, db7, mkRow, db7AfterZero, new_feedback_score,
      combined_score, new_tier, updatedRow, determine_tier, expiry_times]
    all_goals norm_num
    all_goals decide
  · simp +decide [update_feedback, db7AfterZero, mkRow, new_feedback_score,
      combined_score, new_tier, updatedRow, determine_tier, expiry_times, itemScore]

/-- C8: the routine confidence update rewrites the looked-up entry to
`old*0.9 + feedback*0.1`, and for old, feedback ∈ [0,1] that value lies within
[min(old, feedback), max(old, feedback)] — in particular it stays in [0,1]. -/
theorem claim8_routine_blend_bounded (st : MatrixState)
    (domain intent_type model : String) (current feedback_score : ℚ)
    (hc : lookup3 st.matrix domain intent_type model = some current)
    (hc0 : 0 ≤ current) (hc1 : current ≤ 1)
    (hf0 : 0 ≤ feedback_score) (hf1 : feedback_score ≤ 1) :
    (update_confidence st domain intent_type model feedback_score).1 = true
  ∧ lookup3 (update_confidence st domain intent_type model feedback_score).2.matrix
      domain intent_type model = some (routineBlend current feedback_score)
  ∧ min current feedback_score ≤ routineBlend current feedback_score
  ∧ routineBlend current feedback_score ≤ max current feedback_score
  ∧ 0 ≤ routineBlend current feedback_score
  ∧ routineBlend current feedback_score ≤ 1 := by
  rcases h1 : alookup st.matrix domain with _ | intents
  · simp only [lookup3, h1] at hc
    exact absurd hc (by simp)
  rcases h2 : alookup intents intent_type with _ | models
  · simp only [lookup3, h1, h2] at hc
    exact absurd hc (by simp)
  rcases h3 : alookup models model with _ | c
  · simp only [lookup3, h1, h2, h3] at hc
    exact absurd hc (by simp)
  have hcc : c = current := by
    simp only [lookup3, h1, h2, h3, Option.some.injEq] at hc
    exact hc
  subst hcc
  have hmin : min c feedback_score ≤ routineBlend c feedback_score := by
    rcases le_total c feedback_score with h | h
    · rw [min_eq_left h]; unfold routineBlend; linarith
    · rw [min_eq_right h]; unfold routineBlend; linarith
  have hmax : routineBlend c feedback_score ≤ max c feedback_score := by
    rcases le_total c feedback_score with h | h
    · rw [max_eq_right h]; unfold routineBlend; linarith
    · rw [max_eq_left h]; unfold routineBlend; linarith
  refine ⟨?_, ?_, hmin, hmax, le_trans (le_min hc0 hf0) hmin,
    le_trans hmax (max_le hc1 hf1)⟩
  · simp only [update_confidence, h1, h2, h3]
  · simp only [update_confidence, h1, h2, h3, lookup3, alookup_aset]

/-- C8 (witness): blending the default ZhongJing entry 0.95 with feedback 0.5
gives `routineBlend 0.95 0.5` and stays within [0.5, 0.95]. -/
theorem claim8_witness :
    (update_confidence defaultState "中医" "诊断咨询" "仲景模型" 0.5).1 = true
  ∧ lookup3 (update_confidence defaultState "中医" "诊断咨询" "仲景模型" 0.5).2.matrix
      "中医" "诊断咨询" "仲景模型" = some (routineBlend 0.95 0.5)
  ∧ min (0.95 : ℚ) 0.5 ≤ routineBlend 0.95 0.5
  ∧ routineBlend 0.95 0.5 ≤ max (0.95 : ℚ) 0.5
  ∧ (0 : ℚ) ≤ routineBlend 0.95 0.5
  ∧ routineBlend 0.95 0.5 ≤ 1 :=
  claim8_routine_blend_bounded defaultState "中医" "诊断咨询" "仲景模型" 0.95 0.5
    rfl (by norm_num) (by norm_num) (by norm_num) (by norm_num)

/-- C9: a high-urgency `get_best_model` call never mutates the stored matrix —
the selection works on a copied model map in which the GeneralModel entry is
multiplied by 1.2 and capped so that it never exceeds 1.0, whatever the
pre-boost value was. -/
theorem claim9_high_urgency_boost (st : MatrixState) (domain intent_type : String)
    (out : (String × ℚ) × MatrixState)
    (h : get_best_model st domain intent_type "高" = Except.ok out) :
    out.2.matrix = st.matrix
  ∧ ∀ (models : ModelMap) (e : ℚ), alookup models generalModel = some e →
      alookup (effectiveModels models "高") generalModel = some (capBoost e)
      ∧ capBoost e ≤ 1
      ∧ (¬ e * 1.2 > 1 → capBoost e = e * 1.2) := by
  constructor
  · simp only [get_best_model] at h
    repeat' split at h
    all_goals simp_all
    all_goals (subst h; rfl)
  · intro models e he
    refine ⟨?_, ?_, ?_⟩
    · simp [effectiveModels, he, alookup_aset]
    · unfold capBoost
      by_cases hb : e * 1.2 > 1
      · rw [if_pos hb]
      · rw [if_neg hb]; exact le_of_not_lt hb
    · intro hb
      unfold capBoost
      rw [if_neg hb]

/-- C9 (witness): selecting for 西医/诊断咨询 under urgency 高 boosts the 0.90
GeneralModel entry to the cap 1.0, the matrix is unchanged, and a 0.9 entry
boosts to `capBoost 0.9` ≤ 1. -/
theorem claim9_witness :
    c9State.matrix = defaultState.matrix
  ∧ alookup (effectiveModels [(generalModel, 0.9)] "高") generalModel
      = some (capBoost 0.9)
  ∧ capBoost (0.9 : ℚ) ≤ 1 := by
  have h := claim9_high_urgency_boost defaultState "西医" "诊断咨询"
    (("通用医学模型", 1), c9State) (by
      simp +decide [get_best_model, defaultState, default_matrix, effectiveModels,
        alookup, aset, maxBySnd, capBoost, bumpCount, generalModel, c9State]
      norm_num)
  have h2 := h.2 [(generalModel, 0.9)] 0.9 (by simp [alookup])
  exact ⟨h.1, h2.1, h2.2.1⟩

/-- The fallback list never runs dry: whatever adapter failed, some other
registered adapter comes first in registration order. -/
theorem availableModels_head (failed_model : String) :
    ∃ backup rest, availableModels failed_model = backup :: rest
      ∧ backup ≠ failed_model := by
  rcases eq_or_ne failed_model "仲景模型" with rfl | h1
  · exact ⟨"TCMChat", ["通用医学模型"], by decide, by decide⟩
  · refine ⟨"仲景模型", registeredModels.tail.filter (fun n => n ≠ failed_model),
      ?_, Ne.symm h1⟩
    have hd : ("仲景模型" : String) ≠ failed_model := Ne.symm h1
    simp [availableModels, registeredModels, List.filter_cons, hd]

/-- C6: on the direct path (best-model confidence ≥ 0.7) the router returns
the best adapter's answer when it succeeds; when it fails, the single fallback
is the first registered adapter other than the failed one, whose answer is
returned; when that fails too the result is the fixed apology string — for
every adapter outcome the caller receives a normal answer, never an adapter
error. -/
theorem claim6_direct_path (st : MatrixState)
    (outcome : String → Except PyError String)
    (intent_domain intent_type intent_urgency : Option String)
    (best_model_name : String) (confidence : ℚ) (st' : MatrixState)
    (hbest : get_best_model st (intent_domain.getD "通用医学")
        (intent_type.getD "诊断咨询") (intent_urgency.getD "低")
      = Except.ok ((best_model_name, confidence), st'))
    (hconf : ¬ confidence < 0.7) :
    (∀ r, outcome best_model_name = Except.ok r →
        route st outcome intent_domain intent_type intent_urgency
          = Except.ok (r, st'))
  ∧ (∀ e, outcome best_model_name = Except.error e →
      ∃ backup rest, availableModels best_model_name = backup :: rest
        ∧ backup ≠ best_model_name
        ∧ (∀ r, outcome backup = Except.ok r →
            route st outcome intent_domain intent_type intent_urgency
              = Except.ok (r, st'))
        ∧ (∀ e', outcome backup = Except.error e' →
            route st outcome intent_domain intent_type intent_urgency
              = Except.ok (apologyAllFailed, st')))
  ∧ ∃ answer, route st outcome intent_domain intent_type intent_urgency
      = Except.ok (answer, st') := by
  have hroute : route st outcome intent_domain intent_type intent_urgency
      = match outcome best_model_name with
        | Except.ok r => Except.ok (r, st')
        | Except.error _ =>
            Except.ok (fallback_inference outcome best_model_name, st') := by
    simp only [route, hbest, if_neg hconf]
  obtain ⟨backup, rest, hav, hne⟩ := availableModels_head best_model_name
  refine ⟨?_, ?_, ?_⟩
  · intro r hr; rw [hroute, hr]
  · intro e he
    refine ⟨backup, rest, hav, hne, ?_, ?_⟩
    · intro r hr
      rw [hroute, he]
      simp only [fallback_inference, hav, hr]
    · intro e' he'
      rw [hroute, he]
      simp only [fallback_inference, hav, he']
  · rcases hr : outcome best_model_name with e | r
    · exact ⟨_, by rw [hroute, hr]⟩
    · exact ⟨_, by rw [hroute, hr]⟩

/-- C6 (witness): with the default table, 中医/诊断咨询 at urgency 中 selects
ZhongJing (0.95 ≥ 0.7), and with `outcomeW` the router returns its answer. -/
theorem claim6_witness :
    route defaultState outcomeW (some "中医") (some "诊断咨询") (some "中")
      = Except.ok ("辨证论治建议", c6State) := by
  have h := claim6_direct_path defaultState outcomeW (some "中医") (some "诊断咨询")
    (some "中") "仲景模型" 0.95 c6State
    (by
      simp +decide [get_best_model, defaultState, default_matrix, effectiveModels,
        alookup, aset, maxBySnd, capBoost, bumpCount, generalModel, c6State]
      norm_num)
    (by norm_num)
  exact h.1 "辨证论治建议" (by simp [outcomeW])

/-- C10 (amended): every processExplicit / processImplicit call appends
exactly one record to the in-memory history — also when the store update
fails — and the feedback-statistics total counts it; on an unknown id the call
returns failure with the repository unchanged while the history has still
grown.  analyzeTrends, however, never reports such counts: on the post-call
state every window reaching `now` contains the fresh record, so it trips over
the missing `retrieve_by_id` and returns the error status instead of a
count. -/
theorem claim10_history_append_unconditional (fs : OptimizerState) (db : Database)
    (mx : MatrixState) (knowledge_id user_id behavior : String) (score : ℚ)
    (comment : Option String) (intent_data : Bool) (now : Nat) :
    (process_explicit_feedback fs db mx none knowledge_id user_id score comment
        intent_data now).2.1.feedback_history
      = fs.feedback_history ++
        [FeedbackRecord.explicit knowledge_id user_id score comment now]
  ∧ (process_implicit_feedback fs db mx none knowledge_id user_id behavior
        intent_data now).2.1.feedback_history
      = fs.feedback_history ++
        [FeedbackRecord.implicit knowledge_id user_id behavior
          ((alookup implicit_score_mapping behavior).getD 0.5) now]
  ∧ feedback_statistics_total (process_explicit_feedback fs db mx none knowledge_id
        user_id score comment intent_data now).2.1
      = feedback_statistics_total fs + 1
  ∧ analyze_feedback_trends (process_explicit_feedback fs db mx none knowledge_id
        user_id score comment intent_data now).2.1 now
      = TrendsResult.error (PyError.attributeError "retrieve_by_id")
  ∧ (db.items.find? (fun r => r.id == knowledge_id) = none →
      (process_explicit_feedback fs db mx none knowledge_id user_id score comment
          intent_data now).1 = false
      ∧ (process_explicit_feedback fs db mx none knowledge_id user_id score comment
          intent_data now).2.2.1 = db) := by
  have H1 : (process_explicit_feedback fs db mx none knowledge_id user_id score
      comment intent_data now).2.1.feedback_history
      = fs.feedback_history ++
        [FeedbackRecord.explicit knowledge_id user_id score comment now] := by
    rcases hup : update_feedback db none knowledge_id user_id score comment now
      with e | v
    · simp only [process_explicit_feedback, hup]
    · obtain ⟨suc, db'⟩ := v
      simp only [process_explicit_feedback, hup]
      split
      · split <;> rfl
      · rfl
  have H2 : (process_implicit_feedback fs db mx none knowledge_id user_id behavior
      intent_data now).2.1.feedback_history
      = fs.feedback_history ++
        [FeedbackRecord.implicit knowledge_id user_id behavior
          ((alookup implicit_score_mapping behavior).getD 0.5) now] := by
    rcases hup : update_feedback db none knowledge_id user_id
        ((alookup implicit_score_mapping behavior).getD 0.5 *
          ((alookup feedback_weights "implicit").getD 0))
        (some ("隐性反馈: " ++ behavior)) now with e | v
    · simp only [process_implicit_feedback, hup]
    · obtain ⟨suc, db'⟩ := v
      simp only [process_implicit_feedback, hup]
      split
      · split <;> rfl
      · rfl
  have H4 : db.items.find? (fun r => r.id == knowledge_id) = none →
      (process_explicit_feedback fs db mx none knowledge_id user_id score comment
          intent_data now).1 = false
      ∧ (process_explicit_feedback fs db mx none knowledge_id user_id score comment
          intent_data now).2.2.1 = db := by
    intro hnone
    have hup : update_feedback db none knowledge_id user_id score comment now
        = Except.ok (false, db) := by
      simp only [update_feedback, hnone]
    constructor <;> simp [process_explicit_feedback, hup]
  have H5 : analyze_feedback_trends (process_explicit_feedback fs db mx none
      knowledge_id user_id score comment intent_data now).2.1 now
      = TrendsResult.error (PyError.attributeError "retrieve_by_id") := by
    unfold analyze_feedback_trends
    rw [H1]
    simp +decide [List.filter_append, feedbackTimestamp, repositoryMethods]
  exact ⟨H1, H2, by simp [feedback_statistics_total, H1], H5, H4⟩

/-- C10 (counterexample): an explicit feedback on an unknown id is recorded in
the history although it was applied nowhere (the call fails and the store is
unchanged) — yet `analyze_feedback_trends` over a window containing that
record does not count it: it returns the `AttributeError` error status, not a
success total, refuting the claim's analyzeTrends conclusion. -/
theorem claim10_counterexample_trends_error :
    (process_explicit_feedback fs0 dbEmpty defaultState none "kX" "u1" 0.8 none
        true 7).1 = false
  ∧ (process_explicit_feedback fs0 dbEmpty defaultState none "kX" "u1" 0.8 none
        true 7).2.2.1 = dbEmpty
  ∧ analyze_feedback_trends (process_explicit_feedback fs0 dbEmpty defaultState
        none "kX" "u1" 0.8 none true 7).2.1 0
      = TrendsResult.error (PyError.attributeError "retrieve_by_id")
  ∧ TrendsResult.error (PyError.attributeError "retrieve_by_id")
      ≠ TrendsResult.success 1 := by
  refine ⟨?_, ?_, ?_, by simp⟩ <;>
    simp +decide [process_explicit_feedback, update_feedback, fs0, dbEmpty,
      analyze_feedback_trends, feedbackTimestamp, repositoryMethods]

/-- C10 (witness): explicit feedback on an unknown id in an empty store
returns failure, leaves the store unchanged, still leaves one record in the
history, and analyzeTrends over that record yields the error status. -/
theorem claim10_witness :
    (process_explicit_feedback fs0 dbEmpty defaultState none "kX" "u1" 0.8 none
        true 7).2.1.feedback_history
      = [FeedbackRecord.explicit "kX" "u1" 0.8 none 7]
  ∧ (process_explicit_feedback fs0 dbEmpty defaultState none "kX" "u1" 0.8 none
        true 7).1 = false
  ∧ (process_explicit_feedback fs0 dbEmpty defaultState none "kX" "u1" 0.8 none
        true 7).2.2.1 = dbEmpty
  ∧ analyze_feedback_trends (process_explicit_feedback fs0 dbEmpty defaultState
        none "kX" "u1" 0.8 none true 7).2.1 7
      = TrendsResult.error (PyError.attributeError "retrieve_by_id") := by
  have h := claim10_history_append_unconditional fs0 dbEmpty defaultState
    "kX" "u1" "click" 0.8 none true 7
  have h4 := h.2.2.2.2 rfl
  exact ⟨by simpa [fs0] using h.1, h4.1, h4.2, h.2.2.2.1⟩

end MedKB
